import Mathlib

/-!
Shallow embedding of the penalty core of the yaglm repository, covering
the files ya_glm/opt/penalty/convex.py, ya_glm/opt/from_config/penalty.py
and ya_glm/GlmCV.py, together with theorems settling the specification
claims about them.

Conventions.  Numpy arrays are modelled as lists of rationals; the
Euclidean norm used by the group penalties is real-valued.  Python
exceptions are modelled with an explicit error type and fallible
operations return Except.  Helper routines that live in modules of the
repository that are not part of the provided sources (ya_glm/opt/prox.py,
ya_glm/opt/convex_funcs.py, ya_glm/utils.py, ya_glm/config/penalty.py)
are modelled from the specification; each such definition says so in its
doc comment.
-/

/-- Python exceptions that the embedded code can raise. -/
inductive PyErr where
  | notImplementedError (msg : String)
  | typeError (msg : String)
  | attributeError (attr : String)
  | indexError
  | valueError (msg : String)
  | assertionError
deriving DecidableEq, Repr

/-- Elementwise dot product, modelling the numpy expression w.T @ z for two
one-dimensional arrays of equal length. -/
def npDot (a b : List ℚ) : ℚ := (List.zipWith (fun u v => u * v) a b).sum

/-- Numpy x ** 2 on a one-dimensional array. -/
def npSquare (v : List ℚ) : List ℚ := v.map (fun vi => vi ^ 2)

/-- Numpy abs(x) on a one-dimensional array. -/
def npAbs (v : List ℚ) : List ℚ := v.map (fun vi => |vi|)

/-- Numpy c * x: a scalar broadcast against a one-dimensional array. -/
def npMulScalar (c : ℚ) (v : List ℚ) : List ℚ := v.map (fun vi => c * vi)

/-- Numpy x * y: elementwise product of equal-length arrays. -/
def npMul (a b : List ℚ) : List ℚ := List.zipWith (fun u v => u * v) a b

/-- Numpy 1 + x: a scalar broadcast against a one-dimensional array. -/
def npOnePlus (v : List ℚ) : List ℚ := v.map (fun vi => 1 + vi)

/-- Numpy x / y: elementwise quotient of equal-length arrays. -/
def npDiv (a b : List ℚ) : List ℚ := List.zipWith (fun u v => u / v) a b

/-- Modelled from the spec: soft_thresh from ya_glm/opt/prox.py (that file
is not among the provided sources).  The spec gives the entrywise rule
prox(x, s) = sign(x) * max(|x| - thresh, 0). -/
def soft_thresh (xi t : ℚ) : ℚ :=
  (if 0 < xi then 1 else if xi < 0 then -1 else 0) * max (|xi| - t) 0

/-!  Ridge, from ya_glm/opt/penalty/convex.py lines 11-64. -/

/-- The Ridge penalty function f(x) = 0.5 * pen_val * sum_j w_j x_j^2,
from ya_glm/opt/penalty/convex.py (class Ridge).  weights = none models
the Python weights=None case. -/
structure Ridge where
  pen_val : ℚ
  weights : Option (List ℚ)
deriving DecidableEq, Repr

namespace Ridge

/-- Ridge._eval: 0.5 * pen_val * ((x ** 2).sum()) when unweighted, and
0.5 * pen_val * (weights.T @ x ** 2) when weighted. -/
def eval (r : Ridge) (x : List ℚ) : ℚ :=
  match r.weights with
  | none => 1/2 * r.pen_val * (npSquare x).sum
  | some w => 1/2 * r.pen_val * npDot w (npSquare x)

/-- Ridge._prox: shrink_vals = step * pen_val (times weights when
weighted); the result is x / (1 + shrink_vals) elementwise. -/
def prox (r : Ridge) (x : List ℚ) (step : ℚ) : List ℚ :=
  match r.weights with
  | none => x.map (fun xi => xi / (1 + step * r.pen_val))
  | some w => npDiv x (npOnePlus (npMulScalar (step * r.pen_val) w))

/-- Ridge._grad: coef_grad = x, multiplied elementwise by the weights when
weighted, and the result is pen_val * coef_grad. -/
def grad (r : Ridge) (x : List ℚ) : List ℚ :=
  match r.weights with
  | none => npMulScalar r.pen_val x
  | some w => npMulScalar r.pen_val (npMul x w)

/-- Ridge.is_smooth is the constant True. -/
def is_smooth (_ : Ridge) : Bool := true

/-- The _grad_lip attribute set in Ridge.__init__: pen_val when
unweighted, pen_val * weights.max() when weighted; numpy max of an
empty array raises, which is modelled by none. -/
def grad_lip (r : Ridge) : Option ℚ :=
  match r.weights with
  | none => some r.pen_val
  | some w => (w.max?).map (fun m => r.pen_val * m)

end Ridge

/-!  Lasso, from ya_glm/opt/penalty/convex.py lines 120-162. -/

/-- The Lasso penalty f(x) = pen_val * sum_j w_j |x_j|, from
ya_glm/opt/penalty/convex.py (class Lasso). -/
structure Lasso where
  pen_val : ℚ
  weights : Option (List ℚ)
deriving DecidableEq, Repr

namespace Lasso

/-- Lasso._eval: norm_val * pen_val where norm_val is abs(x).sum() or
weights.T @ abs(x). -/
def eval (l : Lasso) (x : List ℚ) : ℚ :=
  match l.weights with
  | none => (npAbs x).sum * l.pen_val
  | some w => npDot w (npAbs x) * l.pen_val

/-- Lasso._prox: thresh_vals = step * pen_val (times weights when
weighted), then entrywise soft thresholding. -/
def prox (l : Lasso) (x : List ℚ) (step : ℚ) : List ℚ :=
  match l.weights with
  | none => x.map (fun xi => soft_thresh xi (step * l.pen_val))
  | some w => List.zipWith soft_thresh x (npMulScalar (step * l.pen_val) w)

/-- Lasso.is_smooth is the constant False. -/
def is_smooth (_ : Lasso) : Bool := false

end Lasso

/-!  ElasticNet, from ya_glm/opt/penalty/convex.py lines 389-413. -/

/-- The ElasticNet penalty, holding the lasso and ridge sub-functions
built in ElasticNet.__init__. -/
structure ElasticNet where
  lasso : Lasso
  ridge : Ridge
deriving DecidableEq, Repr

/-- ElasticNet.__init__(pen_val, mix, lasso_weights, ridge_weights):
self.lasso = Lasso(pen_val * mix, lasso_weights) and
self.ridge = Ridge(pen_val * (1 - mix), ridge_weights).  Note the second
parameter of this constructor is named mix, not mix_val. -/
def ElasticNet.init (pen_val mix : ℚ)
    (lasso_weights ridge_weights : Option (List ℚ)) : ElasticNet :=
  { lasso := { pen_val := pen_val * mix, weights := lasso_weights }
    ridge := { pen_val := pen_val * (1 - mix), weights := ridge_weights } }

/-- ElasticNet.is_smooth: self.lasso.pen_val == 0. -/
def ElasticNet.is_smooth (e : ElasticNet) : Bool := e.lasso.pen_val == 0

/-- ElasticNet._eval: the sum of the lasso and ridge evaluations. -/
def ElasticNet.eval (e : ElasticNet) (x : List ℚ) : ℚ :=
  e.lasso.eval x + e.ridge.eval x

/-!  GroupLasso, from ya_glm/opt/penalty/convex.py lines 165-221. -/

/-- Group index specification.  The Python constructors replace
groups=None by the sentinel list containing only the Ellipsis object,
meaning a single group of all coordinates. -/
inductive GroupsSpec where
  | allCoords
  | explicitGroups (groups : List (List Nat))
deriving DecidableEq, Repr

/-- Modelled from the spec: euclid_norm from ya_glm/linalg_utils.py (not
among the provided sources), the Euclidean norm of a vector. -/
noncomputable def euclid_norm (v : List ℚ) : ℝ :=
  Real.sqrt ((v.map (fun vi => (vi : ℝ) ^ 2)).sum)

/-- Modelled from the spec: the proximal map of L2Norm(mult) from
ya_glm/opt/convex_funcs.py (not among the provided sources).  The spec
gives the block soft-threshold x * max(1 - thresh / norm(x), 0), with the
zero vector mapped to itself. -/
noncomputable def L2_prox (v : List ℚ) (mult : ℚ) : List ℝ :=
  if euclid_norm v = 0 then v.map (fun _ => (0 : ℝ))
  else v.map (fun vi => max (1 - (mult : ℝ) / euclid_norm v) 0 * (vi : ℝ))

/-- The group Lasso penalty from ya_glm/opt/penalty/convex.py
(class GroupLasso); it stores the groups and, through the list of L2Norm
sub-functions built in __init__, the per-group multipliers. -/
structure GroupLasso where
  groups : GroupsSpec
  pen_val : ℚ
  weights : Option (List ℚ)
deriving DecidableEq, Repr

/-- GroupLasso.__init__(groups, pen_val, weights): groups=None is replaced
by the single group of everything. -/
def GroupLasso.init (groups : Option (List (List Nat))) (pen_val : ℚ)
    (weights : Option (List ℚ)) : GroupLasso :=
  { groups := match groups with
      | none => .allCoords
      | some gs => .explicitGroups gs
    pen_val := pen_val
    weights := weights }

/-- The multiplier of the g-th L2Norm sub-function built in
GroupLasso.__init__: pen_val when unweighted, pen_val * weights[g] when
weighted (an out-of-range index, which would raise in Python, is read as
zero here; the theorems below never depend on that case). -/
def GroupLasso.multOf (gl : GroupLasso) (g : Nat) : ℚ :=
  match gl.weights with
  | none => gl.pen_val
  | some w => gl.pen_val * w.getD g 0

/-- GroupLasso.is_smooth is the constant False. -/
def GroupLasso.is_smooth (_ : GroupLasso) : Bool := false

/-- The write-back loop of GroupLasso._prox: starting from
np.zeros_like(x), each per-group prox vector is written entrywise into
the positions named by its group. -/
def scatter (n : Nat) (grps : List (List Nat)) (proxes : List (List ℝ)) :
    List ℝ :=
  (grps.zip proxes).foldl
    (fun out gp => (gp.1.zip gp.2).foldl (fun o iv => o.set iv.1 iv.2) out)
    (List.replicate n (0 : ℝ))

/-- GroupLasso._prox: for each group, the L2 prox of the sub-vector with
threshold mult * step; a group of everything returns its prox directly,
explicit groups are written back into a zero vector. -/
noncomputable def GroupLasso.prox (gl : GroupLasso) (x : List ℚ) (step : ℚ) :
    List ℝ :=
  match gl.groups with
  | .allCoords => L2_prox x (gl.multOf 0 * step)
  | .explicitGroups grps =>
      scatter x.length grps
        ((List.range grps.length).map
          (fun g => L2_prox ((grps.getD g []).map (fun i => x.getD i 0))
            (gl.multOf g * step)))

/-!  SparseGroupLasso, from ya_glm/opt/penalty/convex.py lines 467-494. -/

/-- The sparse group Lasso, holding the Lasso and GroupLasso
sub-functions built in SparseGroupLasso.__init__. -/
structure SparseGroupLasso where
  sparse : Lasso
  group : GroupLasso
deriving DecidableEq, Repr

/-- SparseGroupLasso.__init__(groups, pen_val, mix_val, sparse_weights,
group_weights): self.sparse = Lasso(pen_val * mix_val, sparse_weights)
and self.group = GroupLasso(groups, pen_val * (1 - mix_val),
group_weights). -/
def SparseGroupLasso.init (groups : Option (List (List Nat)))
    (pen_val mix_val : ℚ) (sparse_weights group_weights : Option (List ℚ)) :
    SparseGroupLasso :=
  { sparse := { pen_val := pen_val * mix_val, weights := sparse_weights }
    group := GroupLasso.init groups (pen_val * (1 - mix_val)) group_weights }

/-- SparseGroupLasso.is_smooth is the constant False. -/
def SparseGroupLasso.is_smooth (_ : SparseGroupLasso) : Bool := false

/-- SparseGroupLasso._prox: the GroupLasso prox applied to the result of
the Lasso prox, both with the same step. -/
noncomputable def SparseGroupLasso.prox (s : SparseGroupLasso) (x : List ℚ)
    (step : ℚ) : List ℝ :=
  s.group.prox (s.sparse.prox x step) step

/-!  MultiTaskLasso, GroupElasticNet and MultiTaskElasticNet, from
ya_glm/opt/penalty/convex.py lines 319-348 and 416-464. -/

/-- The multi-task Lasso (row-wise L2 penalty on a coefficient matrix),
class MultiTaskLasso; only its parameters are needed by the claims. -/
structure MultiTaskLasso where
  pen_val : ℚ
  weights : Option (List ℚ)
deriving DecidableEq, Repr

/-- The group elastic net, holding the sub-functions built in
GroupElasticNet.__init__. -/
structure GroupElasticNet where
  lasso : GroupLasso
  ridge : Ridge
deriving DecidableEq, Repr

/-- GroupElasticNet.__init__(groups, pen_val, mix_val, lasso_weights):
self.lasso = GroupLasso(groups, pen_val * mix_val, lasso_weights) and
self.ridge = Ridge(pen_val * (1 - mix_val)) with no ridge weights; the
constructor has no ridge_weights parameter. -/
def GroupElasticNet.init (groups : Option (List (List Nat)))
    (pen_val mix_val : ℚ) (lasso_weights : Option (List ℚ)) :
    GroupElasticNet :=
  { lasso := GroupLasso.init groups (pen_val * mix_val) lasso_weights
    ridge := { pen_val := pen_val * (1 - mix_val), weights := none } }

/-- ElasticNetLikeMixin.is_smooth as inherited by GroupElasticNet. -/
def GroupElasticNet.is_smooth (g : GroupElasticNet) : Bool :=
  g.lasso.pen_val == 0

/-- ElasticNetLikeMixin._prox as inherited by GroupElasticNet
(ya_glm/opt/penalty/convex.py lines 441-445).  The body first asserts
that the ridge is unweighted, then evaluates self.group_lasso, an
attribute that no constructor ever assigns (GroupElasticNet.__init__
stores the group term in self.lasso), so by Python attribute-lookup
semantics the call raises AttributeError before any computation. -/
def GroupElasticNet.prox (g : GroupElasticNet) (_x : List ℚ) (_step : ℚ) :
    Except PyErr (List ℝ) :=
  match g.ridge.weights with
  | some _ => .error .assertionError
  | none => .error (.attributeError "group_lasso")

/-- The multi-task elastic net, holding the sub-functions built in
MultiTaskElasticNet.__init__. -/
structure MultiTaskElasticNet where
  lasso : MultiTaskLasso
  ridge : Ridge
deriving DecidableEq, Repr

/-- MultiTaskElasticNet.__init__(pen_val, mix_val, lasso_weights):
self.lasso = MultiTaskLasso(pen_val * mix_val, lasso_weights) and
self.ridge = Ridge(pen_val * (1 - mix_val)) with no ridge weights; the
constructor has no ridge_weights parameter. -/
def MultiTaskElasticNet.init (pen_val mix_val : ℚ)
    (lasso_weights : Option (List ℚ)) : MultiTaskElasticNet :=
  { lasso := { pen_val := pen_val * mix_val, weights := lasso_weights }
    ridge := { pen_val := pen_val * (1 - mix_val), weights := none } }

/-- ElasticNetLikeMixin._prox as inherited by MultiTaskElasticNet: the
same missing self.group_lasso attribute, so AttributeError is raised
after the assert on the ridge weights. -/
def MultiTaskElasticNet.prox (m : MultiTaskElasticNet)
    (_x : List (List ℚ)) (_step : ℚ) : Except PyErr (List (List ℝ)) :=
  match m.ridge.weights with
  | some _ => .error .assertionError
  | none => .error (.attributeError "group_lasso")

/-!  ExclusiveGroupLasso, from ya_glm/opt/penalty/convex.py lines
224-281; only its parameters are needed by the claims. -/

/-- The exclusive group Lasso penalty (class ExclusiveGroupLasso). -/
structure ExclusiveGroupLasso where
  groups : GroupsSpec
  pen_val : ℚ
deriving DecidableEq, Repr

/-- ExclusiveGroupLasso.__init__(groups, pen_val): groups=None is
replaced by the single group of everything. -/
def ExclusiveGroupLasso.init (groups : Option (List (List Nat)))
    (pen_val : ℚ) : ExclusiveGroupLasso :=
  { groups := match groups with
      | none => .allCoords
      | some gs => .explicitGroups gs
    pen_val := pen_val }

/-!  Func graphs: the Sum and BlockSeparable combinators (modelled from
the spec, since ya_glm/opt/base.py and ya_glm/opt/BlockSeparable.py are
not among the provided sources) over Ridge and Lasso leaves, which are
the leaves the split claims are about. -/

/-- A penalty Func graph: Ridge and Lasso leaves combined by Sum
(functions on a shared domain, added) and BlockSeparable (functions on
disjoint index groups). -/
inductive PFunc where
  | ridge (r : Ridge)
  | lasso (l : Lasso)
  | sum (funcs : List PFunc)
  | blockSep (funcs : List PFunc) (groups : List (List Nat))

mutual

/-- is_smooth of a Func graph.  Leaves answer for themselves; modelled
from the spec for the combinators: a Sum or BlockSeparable is smooth
exactly when every child is. -/
def PFunc.is_smooth : PFunc → Bool
  | .ridge r => r.is_smooth
  | .lasso l => l.is_smooth
  | .sum fs => PFunc.allSmooth fs
  | .blockSep fs _ => PFunc.allSmooth fs

/-- The conjunction of is_smooth over a list of children. -/
def PFunc.allSmooth : List PFunc → Bool
  | [] => true
  | f :: fs => f.is_smooth && PFunc.allSmooth fs

end

mutual

/-- Evaluation of a Func graph.  Leaves use their own _eval; modelled
from the spec for the combinators: a Sum evaluates to the sum of its
children, a BlockSeparable to the sum of each child evaluated on the
sub-vector named by its group. -/
def PFunc.eval : PFunc → List ℚ → ℚ
  | .ridge r, x => r.eval x
  | .lasso l, x => l.eval x
  | .sum fs, x => PFunc.evalSum fs x
  | .blockSep fs grps, x => PFunc.evalBlocks fs grps x

/-- The sum of the evaluations of a list of children on a shared input. -/
def PFunc.evalSum : List PFunc → List ℚ → ℚ
  | [], _ => 0
  | f :: fs, x => f.eval x + PFunc.evalSum fs x

/-- The sum of the evaluations of children on their group sub-vectors. -/
def PFunc.evalBlocks : List PFunc → List (List Nat) → List ℚ → ℚ
  | f :: fs, g :: gs, x =>
      f.eval (g.map (fun i => x.getD i 0)) + PFunc.evalBlocks fs gs x
  | _, _, _ => 0

end

/-- split_smooth_and_non_smooth from ya_glm/opt/from_config/penalty.py
lines 210-290, translated branch by branch.  For a Sum the children are
filtered on is_smooth; the smooth half is the single smooth child, a Sum
of them, or absent.  The non-smooth half is computed by the chain that
begins, as in the source, with the test len(smooth_funcs) == 1, under
which non_smooth_funcs[0] is returned (raising IndexError when there is
no non-smooth child).  A BlockSeparable is split per group.  Any other
Func is returned as the smooth half when smooth, and otherwise both
halves are absent. -/
def split_smooth_and_non_smooth (func : PFunc) :
    Except PyErr (Option PFunc × Option PFunc) :=
  match func with
  | .sum fs =>
      let smooth_funcs := fs.filter (fun f => f.is_smooth)
      let non_smooth_funcs := fs.filter (fun f => !f.is_smooth)
      let smooth : Option PFunc :=
        if smooth_funcs.length = 1 then smooth_funcs.head?
        else if 1 < smooth_funcs.length then some (.sum smooth_funcs)
        else none
      let non_smooth : Except PyErr (Option PFunc) :=
        if smooth_funcs.length = 1 then
          match non_smooth_funcs.head? with
          | some f => .ok (some f)
          | none => .error .indexError
        else if 1 ≤ non_smooth_funcs.length then
          .ok (some (.sum non_smooth_funcs))
        else .ok none
      match non_smooth with
      | .ok ns => .ok (smooth, ns)
      | .error e => .error e
  | .blockSep fs grps =>
      let pairs := fs.zip grps
      let smooth_pairs := pairs.filter (fun p => p.1.is_smooth)
      let non_smooth_pairs := pairs.filter (fun p => !p.1.is_smooth)
      let smooth : Option PFunc :=
        if 1 ≤ smooth_pairs.length then
          some (.blockSep (smooth_pairs.map (fun p => p.1))
            (smooth_pairs.map (fun p => p.2)))
        else none
      let non_smooth : Option PFunc :=
        if 1 ≤ non_smooth_pairs.length then
          some (.blockSep (non_smooth_pairs.map (fun p => p.1))
            (non_smooth_pairs.map (fun p => p.2)))
        else none
      .ok (smooth, non_smooth)
  | f => .ok (if f.is_smooth then some f else none, none)

/-!  The penalty factory, from ya_glm/opt/from_config/penalty.py lines
37-207.  The configuration classes live in ya_glm/config/penalty.py,
which is not among the provided sources, so they are modelled from the
spec as a closed family of declarative records carrying the fields the
factory reads; get_flavor_kind is modelled by the optional flavor tag. -/

/-- Modelled from the spec: the flavor kind of a penalty configuration,
distinguishing the adaptive and non-convex flavors from the plain convex
form (which carries no flavor). -/
inductive FlavorKind where
  | adaptive
  | non_convex
deriving DecidableEq, Repr

/-- Modelled from the spec: the declarative penalty configurations read
by the factory (ya_glm/config/penalty.py is not among the provided
sources).  Each constructor carries the fields the corresponding factory
branch reads; unknownCfg stands for any configuration type the factory
does not recognise, carrying the text used to print it. -/
inductive PenaltyConfig where
  | noPenalty
  | ridgeCfg (pen_val : ℚ) (weights : Option (List ℚ))
      (flavor : Option FlavorKind)
  | lassoCfg (pen_val : ℚ) (weights : Option (List ℚ))
      (flavor : Option FlavorKind)
  | exclusiveGroupLassoCfg (groups : Option (List (List Nat))) (pen_val : ℚ)
      (flavor : Option FlavorKind)
  | elasticNetCfg (pen_val mix_val : ℚ)
      (lasso_weights ridge_weights : Option (List ℚ))
      (flavor : Option FlavorKind)
  | groupElasticNetCfg (groups : Option (List (List Nat)))
      (pen_val mix_val : ℚ) (lasso_weights ridge_weights : Option (List ℚ))
      (flavor : Option FlavorKind)
  | multiTaskElasticNetCfg (pen_val mix_val : ℚ)
      (lasso_weights ridge_weights : Option (List ℚ))
      (flavor : Option FlavorKind)
  | sparseGroupLassoCfg (groups : Option (List (List Nat)))
      (pen_val mix_val : ℚ)
      (sparse_weights group_weights : Option (List ℚ))
      (flavor : Option FlavorKind)
  | unknownCfg (descr : String)
deriving DecidableEq, Repr

/-- The Func values the modelled factory branches can return.  The Zero
function models ya_glm.opt.base.Zero; nonconvexF models, from the spec,
the outer non-convex scalar function returned by get_nonconvex_func
(ya_glm/opt/penalty/nonconvex.py is not among the provided sources) -
only its existence matters to the claims. -/
inductive OptFunc where
  | zero
  | ridgeF (r : Ridge)
  | lassoF (l : Lasso)
  | nonconvexF (pen_val : ℚ)
  | exclusiveGroupLassoF (e : ExclusiveGroupLasso)
  | elasticNetF (e : ElasticNet)
  | sparseGroupLassoF (s : SparseGroupLasso)
deriving DecidableEq, Repr

/-- get_penalty_func from ya_glm/opt/from_config/penalty.py, restricted
to the configuration families the claims are about.  Where the source
raises, the model returns the corresponding error:
 - the ExclusiveGroupLasso branch raises a bare NotImplementedError for
   any flavor (line 93);
 - the three elastic-net families and the sparse group Lasso raise
   NotImplementedError with a TODO message under the non-convex flavor
   (lines 141, 154, 167, 180);
 - the convex ElasticNet branch calls ElasticNet(pen_val=..., mix_val=...,
   ...) although ElasticNet.__init__ names the parameter mix, so by
   Python call semantics the branch raises TypeError (lines 145-149);
 - the convex GroupElasticNet and MultiTaskElasticNet branches pass
   ridge_weights=..., a keyword their __init__ does not accept, so they
   raise TypeError (lines 157-162 and 170-174);
 - an unrecognised configuration reaches the fallback raise whose message
   names the configuration (lines 204-207). -/
def get_penalty_func : PenaltyConfig → Except PyErr OptFunc
  | .noPenalty => .ok .zero
  | .ridgeCfg pen w _ => .ok (.ridgeF { pen_val := pen, weights := w })
  | .lassoCfg pen w fl =>
      match fl with
      | some .non_convex => .ok (.nonconvexF pen)
      | _ => .ok (.lassoF { pen_val := pen, weights := w })
  | .exclusiveGroupLassoCfg groups pen fl =>
      match fl with
      | some _ => .error (.notImplementedError "")
      | none => .ok (.exclusiveGroupLassoF (ExclusiveGroupLasso.init groups pen))
  | .elasticNetCfg _pen _mix _lw _rw fl =>
      match fl with
      | some .non_convex => .error (.notImplementedError "TODO: add")
      | _ => .error (.typeError "unexpected keyword argument mix_val")
  | .groupElasticNetCfg _groups _pen _mix _lw _rw fl =>
      match fl with
      | some .non_convex => .error (.notImplementedError "TODO: add")
      | _ => .error (.typeError "unexpected keyword argument ridge_weights")
  | .multiTaskElasticNetCfg _pen _mix _lw _rw fl =>
      match fl with
      | some .non_convex => .error (.notImplementedError "TODO: add")
      | _ => .error (.typeError "unexpected keyword argument ridge_weights")
  | .sparseGroupLassoCfg groups pen mix sw gw fl =>
      match fl with
      | some .non_convex => .error (.notImplementedError "TODO")
      | _ => .ok (.sparseGroupLassoF (SparseGroupLasso.init groups pen mix sw gw))
  | .unknownCfg d =>
      .error (.notImplementedError
        (d ++ " is not currently supported by ya_glm.opt.penalty"))

/-- Whether one character list is a prefix of another. -/
def charListPre : List Char → List Char → Bool
  | [], _ => true
  | _ :: _, [] => false
  | a :: as, b :: bs => a == b && charListPre as bs

/-- Whether one character list occurs inside another. -/
def charListInf (needle : List Char) : List Char → Bool
  | [] => charListPre needle []
  | c :: rest => charListPre needle (c :: rest) || charListInf needle rest

/-- Whether an error message mentions a given name, as a substring
test on the underlying character lists. -/
def msgMentions (msg fam : String) : Bool :=
  charListInf fam.data msg.data

/-!  Penalty value sequences, from ya_glm/GlmCV.py lines 221-239 and
408-477. -/

/-- Modelled from the spec: get_sequence_decr_max from ya_glm/utils.py
(not among the provided sources) returns num penalty values spanning the
interval from min_val_mult * max_val up to max_val in decreasing order;
linear spacing is written out here, and the spacing choice cannot affect
the ordering theorems below because get_pen_val_seq re-sorts its result
unconditionally. -/
def get_sequence_decr_max (max_val min_val_mult : ℚ) (num : Nat) : List ℚ :=
  (List.range num).map
    (fun i => max_val * (min_val_mult +
      (1 - min_val_mult) * ((num - 1 - i : Nat) : ℚ) / ((num - 1 : Nat) : ℚ)))

/-- np.sort(a)[::-1]: sort in increasing order, then reverse. -/
def sortDescending (l : List ℚ) : List ℚ :=
  (List.insertionSort (fun a b => a ≤ b) l).reverse

/-- get_pen_val_seq from ya_glm/GlmCV.py: the user-provided values, or
an automatically generated sequence, sorted into decreasing order. -/
def get_pen_val_seq (pen_val_max : ℚ) (n_pen_vals : Nat)
    (pen_vals : Option (List ℚ)) (pen_min_mult : ℚ) : List ℚ :=
  let pen_val_seq :=
    match pen_vals with
    | none => get_sequence_decr_max pen_val_max pen_min_mult n_pen_vals
    | some vs => vs
  sortDescending pen_val_seq

/-- np.finfo(float).eps, the double-precision machine epsilon. -/
def npEps : ℚ := 1 / 2 ^ 52

/-- get_enet_pen_val_seq from ya_glm/GlmCV.py, in the l1-ratio-tuning
case (l1_ratio_val None and l1_ratio_seq given), which is the case the
row-wise claim is about.  min() of an empty sequence raises ValueError;
an automatically generated grid has one row per l1 ratio with maximum
lasso_pen_val_max / ratio; the ndim and shape asserts are modelled by
the length comparison; finally every row is sorted into decreasing
order. -/
def get_enet_pen_val_seq (lasso_pen_val_max : ℚ)
    (pen_vals : Option (List (List ℚ))) (n_pen_vals : Nat)
    (pen_min_mult : ℚ) (l1_ratio_seq : List ℚ) :
    Except PyErr (List (List ℚ)) :=
  match l1_ratio_seq.min? with
  | none => .error (.valueError "min() arg is an empty sequence")
  | some l1_ratio_min =>
      let rows : Except PyErr (List (List ℚ)) :=
        match pen_vals with
        | some user => .ok user
        | none =>
            if l1_ratio_min ≤ npEps then
              .error (.valueError
                "Unable to set pen_val_seq using default when the l1_ratio is zero.")
            else
              .ok (l1_ratio_seq.map
                (fun r => get_sequence_decr_max (lasso_pen_val_max / r)
                  pen_min_mult n_pen_vals))
      match rows with
      | .error e => .error e
      | .ok rs =>
          if rs.length = l1_ratio_seq.length then
            .ok (rs.map sortDescending)
          else
            .error .assertionError

/-!  Helper lemmas shared by the claim theorems. -/

theorem list_map_eq_self {f : ℚ → ℚ} (h : ∀ a, f a = a) :
    ∀ l : List ℚ, l.map f = l
  | [] => rfl
  | a :: t => by rw [List.map_cons, h a, list_map_eq_self h t]

theorem list_zipWith_fst {f : ℚ → ℚ → ℚ} (h : ∀ a b, f a b = a) :
    ∀ (x w : List ℚ), w.length = x.length → List.zipWith f x w = x
  | [], [], _ => rfl
  | [], _ :: _, hl => by simp at hl
  | _ :: _, [], hl => by simp at hl
  | a :: x, b :: w, hl => by
      rw [List.zipWith_cons_cons, h a b,
        list_zipWith_fst h x w (by simpa using hl)]

theorem soft_thresh_zero (a : ℚ) : soft_thresh a 0 = a := by
  unfold soft_thresh
  rcases lt_trichotomy 0 a with h | h | h
  · rw [if_pos h, abs_of_pos h, sub_zero, max_eq_left h.le, one_mul]
  · rw [← h]; simp
  · have ha : a < 0 := h
    rw [if_neg (not_lt.mpr ha.le), if_pos ha, abs_of_neg ha, sub_zero,
      max_eq_left (by linarith), neg_one_mul, neg_neg]

theorem sortDescending_pairwise (l : List ℚ) :
    (sortDescending l).Pairwise (fun a b => a ≥ b) := by
  unfold sortDescending
  rw [List.pairwise_reverse]
  exact (List.sorted_insertionSort (fun a b => a ≤ b) l).imp (fun h => h.ge)

theorem sortDescending_perm (l : List ℚ) : (sortDescending l).Perm l :=
  (List.reverse_perm _).trans (List.perm_insertionSort _ l)

/-!  Claim theorems. -/

/-- C8: an ElasticNet built from strength pen_val and mixing parameter
mix reports is_smooth exactly when the lasso component strength
pen_val * mix is zero; both branches of the iff hold. -/
theorem elasticNet_is_smooth_iff (pen_val mix : ℚ)
    (lasso_weights ridge_weights : Option (List ℚ)) :
    (ElasticNet.init pen_val mix lasso_weights ridge_weights).is_smooth = true
      ↔ pen_val * mix = 0 := by
  simp [ElasticNet.init, ElasticNet.is_smooth]

/-- C6: the SparseGroupLasso proximal map is the GroupLasso prox with
strength pen_val * (1 - mix_val) and the group weights applied to the
result of the Lasso prox with strength pen_val * mix_val and the sparse
weights: the entrywise step first, the group step second. -/
theorem sparseGroupLasso_prox_order (groups : Option (List (List Nat)))
    (pen_val mix_val : ℚ) (sparse_weights group_weights : Option (List ℚ))
    (x : List ℚ) (step : ℚ) :
    (SparseGroupLasso.init groups pen_val mix_val sparse_weights
        group_weights).prox x step
      = GroupLasso.prox
          (GroupLasso.init groups (pen_val * (1 - mix_val)) group_weights)
          (Lasso.prox ⟨pen_val * mix_val, sparse_weights⟩ x step)
          step := rfl

/-- C3: for every convex-flavored ElasticNet configuration the factory
raises TypeError at assembly time, because it passes the keyword mix_val
to a constructor whose parameter is named mix; no ElasticNet Func is
ever returned. -/
theorem get_penalty_func_elasticNet_raises (pen_val mix_val : ℚ)
    (lasso_weights ridge_weights : Option (List ℚ)) :
    get_penalty_func
        (.elasticNetCfg pen_val mix_val lasso_weights ridge_weights none)
      = .error (.typeError "unexpected keyword argument mix_val") := rfl

/-- C2: both elastic-net-like composite penalties fail: the factory
raises TypeError at assembly for every convex GroupElasticNet and
MultiTaskElasticNet configuration (it passes ridge_weights, which their
constructors do not accept), and the proximal map of a directly
constructed instance, whose ridge is necessarily unweighted, raises
AttributeError on the never-assigned group_lasso attribute instead of
computing the joint formula. -/
theorem elasticNetLike_prox_path_broken :
    (∀ groups pen_val mix_val lasso_weights ridge_weights,
       get_penalty_func (.groupElasticNetCfg groups pen_val mix_val
           lasso_weights ridge_weights none)
         = .error (.typeError "unexpected keyword argument ridge_weights"))
  ∧ (∀ pen_val mix_val lasso_weights ridge_weights,
       get_penalty_func (.multiTaskElasticNetCfg pen_val mix_val
           lasso_weights ridge_weights none)
         = .error (.typeError "unexpected keyword argument ridge_weights"))
  ∧ (∀ groups pen_val mix_val lasso_weights x step,
       (GroupElasticNet.init groups pen_val mix_val lasso_weights).prox x step
         = .error (.attributeError "group_lasso"))
  ∧ (∀ pen_val mix_val lasso_weights x step,
       (MultiTaskElasticNet.init pen_val mix_val lasso_weights).prox x step
         = .error (.attributeError "group_lasso")) :=
  ⟨fun _ _ _ _ _ => rfl, fun _ _ _ _ => rfl,
   fun _ _ _ _ _ _ => rfl, fun _ _ _ _ _ => rfl⟩

/-- C4, counterexample: the ExclusiveGroupLasso-with-flavor branch
raises a bare NotImplementedError whose message is empty, so the raised
error does not name the unsupported combination. -/
theorem unsupported_combo_error_names_nothing :
    get_penalty_func (.exclusiveGroupLassoCfg (some [[0]]) 1 (some .adaptive))
      = .error (.notImplementedError "")
  ∧ msgMentions "" "ExclusiveGroupLasso" = false := ⟨rfl, by decide⟩

/-- C4, amended: every unsupported family/flavor combination makes the
factory raise at assembly time, so no Func with deferred failure is ever
returned; the raised messages are empty or TODO stubs for the
ExclusiveGroupLasso and elastic-net branches, and only the fallback for
unrecognised configurations names the configuration. -/
theorem get_penalty_func_fails_fast_on_unsupported :
    (∀ groups pen_val fl,
       get_penalty_func (.exclusiveGroupLassoCfg groups pen_val (some fl))
         = .error (.notImplementedError ""))
  ∧ (∀ pen_val mix_val lw rw,
       get_penalty_func
           (.elasticNetCfg pen_val mix_val lw rw (some .non_convex))
         = .error (.notImplementedError "TODO: add"))
  ∧ (∀ groups pen_val mix_val lw rw,
       get_penalty_func
           (.groupElasticNetCfg groups pen_val mix_val lw rw
             (some .non_convex))
         = .error (.notImplementedError "TODO: add"))
  ∧ (∀ pen_val mix_val lw rw,
       get_penalty_func
           (.multiTaskElasticNetCfg pen_val mix_val lw rw (some .non_convex))
         = .error (.notImplementedError "TODO: add"))
  ∧ (∀ groups pen_val mix_val sw gw,
       get_penalty_func
           (.sparseGroupLassoCfg groups pen_val mix_val sw gw
             (some .non_convex))
         = .error (.notImplementedError "TODO"))
  ∧ (∀ d, get_penalty_func (.unknownCfg d)
         = .error (.notImplementedError
             (d ++ " is not currently supported by ya_glm.opt.penalty"))) :=
  ⟨fun _ _ _ => rfl, fun _ _ _ _ => rfl, fun _ _ _ _ _ => rfl,
   fun _ _ _ _ => rfl, fun _ _ _ _ _ => rfl, fun _ => rfl⟩

/-- C9: a leaf Func that is neither a Sum nor a BlockSeparable and is
not smooth is returned in neither half by split_smooth_and_non_smooth:
both the smooth and the non-smooth part are absent. -/
theorem split_drops_nonsmooth_leaf (f : PFunc)
    (hsum : ∀ fs, f ≠ .sum fs)
    (hblock : ∀ fs gs, f ≠ .blockSep fs gs)
    (hns : f.is_smooth = false) :
    split_smooth_and_non_smooth f = .ok (none, none) := by
  cases f with
  | ridge r => simp [PFunc.is_smooth, Ridge.is_smooth] at hns
  | lasso l => rfl
  | sum fs => exact absurd rfl (hsum fs)
  | blockSep fs gs => exact absurd rfl (hblock fs gs)

/-- Witness for C9 at a bare Lasso leaf. -/
theorem split_drops_nonsmooth_leaf_witness :
    split_smooth_and_non_smooth (.lasso { pen_val := 1, weights := none })
      = .ok (none, none) :=
  split_drops_nonsmooth_leaf (.lasso { pen_val := 1, weights := none })
    (fun _ h => PFunc.noConfusion h) (fun _ _ h => PFunc.noConfusion h) rfl

/-- C5: the Ridge closed forms.  For strength lam with optional
non-negative weights ws and step s, the evaluation is
0.5 * lam * sum of w_j x_j^2, the gradient is lam * w elementwise times
x, the prox divides x elementwise by 1 + s * lam * w (w = 1 when
unweighted), is_smooth holds, and the gradient Lipschitz constant is
lam times the largest weight (lam when unweighted). -/
theorem ridge_closed_forms (lam s wmax : ℚ) (ws x : List ℚ)
    (hlen : ws.length = x.length) (hw : ∀ w ∈ ws, 0 ≤ w) (hlam : 0 ≤ lam)
    (hs : 0 < s) (hmax : ws.max? = some wmax) :
    (Ridge.eval ⟨lam, none⟩ x = 1/2 * lam * (x.map (fun xi => xi ^ 2)).sum)
  ∧ (Ridge.eval ⟨lam, some ws⟩ x
      = 1/2 * lam * (List.zipWith (fun wi xi => wi * xi ^ 2) ws x).sum)
  ∧ (Ridge.grad ⟨lam, none⟩ x = x.map (fun xi => lam * xi))
  ∧ (Ridge.grad ⟨lam, some ws⟩ x
      = List.zipWith (fun wi xi => lam * (wi * xi)) ws x)
  ∧ (Ridge.prox ⟨lam, none⟩ x s = x.map (fun xi => xi / (1 + s * lam)))
  ∧ (Ridge.prox ⟨lam, some ws⟩ x s
      = List.zipWith (fun wi xi => xi / (1 + s * lam * wi)) ws x)
  ∧ (Ridge.is_smooth ⟨lam, some ws⟩ = true)
  ∧ (Ridge.grad_lip ⟨lam, none⟩ = some lam)
  ∧ (Ridge.grad_lip ⟨lam, some ws⟩ = some (lam * wmax)) := by
  refine ⟨rfl, ?_, rfl, ?_, rfl, ?_, rfl, rfl, ?_⟩
  · simp only [Ridge.eval, npDot, npSquare, List.zipWith_map_right]
  · simp only [Ridge.grad, npMulScalar, npMul, List.map_zipWith]
    rw [List.zipWith_comm]
    congr 1
    funext wi xi
    ring
  · simp only [Ridge.prox, npDiv, npOnePlus, npMulScalar, List.map_map,
      Function.comp, List.zipWith_map_right]
    rw [List.zipWith_comm]
  · simp only [Ridge.grad_lip, hmax]; rfl

/-- Witness for C5 at lam = 1, s = 1, ws = [2, 5], x = [3, 4]. -/
theorem ridge_closed_forms_witness :
    (0 : ℚ) < 1 ∧ Ridge.grad_lip ⟨1, some [2, 5]⟩ = some (1 * 5) :=
  ⟨by decide, (ridge_closed_forms 1 1 5 [2, 5] [3, 4] (by decide) (by decide)
    (by decide) (by decide) (by decide)).2.2.2.2.2.2.2.2⟩

/-- C7: the Lasso and Ridge proximal maps are the identity at step 0,
and at strength 0 they are the identity for every positive step, in both
the unweighted and the weighted cases. -/
theorem lasso_ridge_prox_identities (p s : ℚ) (ws x : List ℚ)
    (hlen : ws.length = x.length) (hs : 0 < s) :
    (Lasso.prox ⟨p, none⟩ x 0 = x)
  ∧ (Lasso.prox ⟨p, some ws⟩ x 0 = x)
  ∧ (Ridge.prox ⟨p, none⟩ x 0 = x)
  ∧ (Ridge.prox ⟨p, some ws⟩ x 0 = x)
  ∧ (Lasso.prox ⟨0, none⟩ x s = x)
  ∧ (Lasso.prox ⟨0, some ws⟩ x s = x)
  ∧ (Ridge.prox ⟨0, none⟩ x s = x)
  ∧ (Ridge.prox ⟨0, some ws⟩ x s = x) := by
  refine ⟨?_, ?_, ?_, ?_, ?_, ?_, ?_, ?_⟩
  · simp only [Lasso.prox]
    exact list_map_eq_self (fun a => by simp [soft_thresh_zero]) x
  · simp only [Lasso.prox, npMulScalar, List.zipWith_map_right]
    exact list_zipWith_fst (fun a b => by simp [soft_thresh_zero]) x ws hlen
  · simp only [Ridge.prox]
    exact list_map_eq_self (fun a => by simp) x
  · simp only [Ridge.prox, npDiv, npOnePlus, npMulScalar, List.map_map,
      Function.comp, List.zipWith_map_right]
    exact list_zipWith_fst (fun a b => by simp) x ws hlen
  · simp only [Lasso.prox]
    exact list_map_eq_self (fun a => by simp [soft_thresh_zero]) x
  · simp only [Lasso.prox, npMulScalar, List.zipWith_map_right]
    exact list_zipWith_fst (fun a b => by simp [soft_thresh_zero]) x ws hlen
  · simp only [Ridge.prox]
    exact list_map_eq_self (fun a => by simp) x
  · simp only [Ridge.prox, npDiv, npOnePlus, npMulScalar, List.map_map,
      Function.comp, List.zipWith_map_right]
    exact list_zipWith_fst (fun a b => by simp) x ws hlen

/-- Witness for C7 at p = 1, s = 1, ws = [2, 5], x = [3, -4]. -/
theorem lasso_ridge_prox_identities_witness :
    (0 : ℚ) < 1 ∧ Lasso.prox ⟨1, none⟩ [3, -4] 0 = [3, -4] :=
  ⟨by decide, (lasso_ridge_prox_identities 1 1 [2, 5] [3, -4]
    (by decide) (by decide)).1⟩

/-- C1: splitting the Sum of one Ridge and two Lasso terms keeps only
the first Lasso in the non-smooth half, so the recombined evaluation at
the point [1] is 3/2 while the direct evaluation of the composite is
5/2; moreover a Sum with one smooth and no non-smooth child makes the
splitter raise IndexError.  This exhibits the failure of the claimed
recombination identity on the code. -/
theorem split_smooth_sum_not_recombining :
    (split_smooth_and_non_smooth
        (.sum [.ridge ⟨1, none⟩, .lasso ⟨1, none⟩, .lasso ⟨1, none⟩])
      = .ok (some (.ridge ⟨1, none⟩), some (.lasso ⟨1, none⟩)))
  ∧ ((PFunc.ridge ⟨1, none⟩).eval [1] + (PFunc.lasso ⟨1, none⟩).eval [1]
      = 3/2)
  ∧ ((PFunc.sum [.ridge ⟨1, none⟩, .lasso ⟨1, none⟩,
        .lasso ⟨1, none⟩]).eval [1] = 5/2)
  ∧ ((3 : ℚ)/2 ≠ 5/2)
  ∧ (split_smooth_and_non_smooth (.sum [.ridge ⟨1, none⟩])
      = .error .indexError) := by
  refine ⟨rfl, ?_, ?_, by norm_num, rfl⟩
  · norm_num [PFunc.eval, Ridge.eval, Lasso.eval, npSquare, npAbs]
  · norm_num [PFunc.eval, PFunc.evalSum, Ridge.eval, Lasso.eval, npSquare,
      npAbs]

/-- C10, counterexample: with duplicated user-supplied values the
returned sequence is not strictly decreasing. -/
theorem pen_val_seq_not_strictly_decreasing :
    get_pen_val_seq 0 0 (some [1, 1]) 0 = [1, 1]
  ∧ ¬ (get_pen_val_seq 0 0 (some [1, 1]) 0).Pairwise (fun a b => a > b) := by
  refine ⟨rfl, ?_⟩
  intro hcontra
  rw [show get_pen_val_seq 0 0 (some [1, 1]) 0 = [1, 1] from rfl] at hcontra
  exact absurd ((List.pairwise_cons.mp hcontra).1 1 (by simp)) (lt_irrefl 1)

/-- C10, amended: get_pen_val_seq always returns its values in
non-increasing order and, for user-supplied values, returns a
permutation of them; get_enet_pen_val_seq returns every row in
non-increasing order whenever it succeeds. -/
theorem pen_val_seq_sorted_decreasing :
    (∀ (pmax : ℚ) (n : Nat) (pv : Option (List ℚ)) (mm : ℚ),
       (get_pen_val_seq pmax n pv mm).Pairwise (fun a b => a ≥ b))
  ∧ (∀ (pmax : ℚ) (n : Nat) (vs : List ℚ) (mm : ℚ),
       (get_pen_val_seq pmax n (some vs) mm).Perm vs)
  ∧ (∀ (lmax : ℚ) (pv : Option (List (List ℚ))) (n : Nat) (mm : ℚ)
       (lseq : List ℚ) (rows : List (List ℚ)),
       get_enet_pen_val_seq lmax pv n mm lseq = .ok rows →
       ∀ row ∈ rows, row.Pairwise (fun a b => a ≥ b)) := by
  refine ⟨fun pmax n pv mm => sortDescending_pairwise _,
    fun pmax n vs mm => sortDescending_perm vs, ?_⟩
  intro lmax pv n mm lseq rows h
  unfold get_enet_pen_val_seq at h
  rcases hmin : lseq.min? with _ | m <;> rw [hmin] at h
  · exact absurd h (by simp)
  · have key : ∀ rs : List (List ℚ),
        ((if rs.length = lseq.length then
            Except.ok (rs.map sortDescending)
          else Except.error PyErr.assertionError) :
            Except PyErr (List (List ℚ))) = .ok rows →
        ∀ row ∈ rows, row.Pairwise (fun a b => a ≥ b) := by
      intro rs hrs
      by_cases hl : rs.length = lseq.length
      · rw [if_pos hl] at hrs
        injection hrs with h2
        subst h2
        intro row hrow
        obtain ⟨r, _, hr⟩ := List.mem_map.mp hrow
        exact hr ▸ sortDescending_pairwise r
      · rw [if_neg hl] at hrs
        exact absurd hrs (by simp)
    rcases pv with _ | user
    · dsimp only at h
      by_cases hm : m ≤ npEps
      · rw [if_pos hm] at h
        exact absurd h (by simp)
      · rw [if_neg hm] at h
        exact key _ h
    · exact key user h

/-- Witness for C10 on a concrete user-supplied elastic-net grid. -/
theorem pen_val_seq_sorted_decreasing_witness :
    ∀ row ∈ [[(2 : ℚ), 1], [3]], row.Pairwise (fun a b => a ≥ b) :=
  pen_val_seq_sorted_decreasing.2.2 1 (some [[1, 2], [3]]) 0 0 [1, 2]
    [[2, 1], [3]] rfl
